import Mathlib

/-
Verification of the question-generation pipeline core:
a shallow embedding of `agents.py` (generate_questions, validate_questions,
format_output_node) and `graph.py` (should_retry, create_workflow_graph).

Modelling conventions:
* The external LLM call is an oracle outcome: either the call raised, or it
  returned a textual content.  `json.loads` is modelled as an abstract
  parameter `parse : String → Option (List _)`; `none` stands for any
  response whose decoding (or subsequent duck-typed use) raises, which the
  `except` block of the stage turns into the fallback of that stage.
* JSON object fields are three-valued (`JVal`): the key may be missing, hold
  an explicit null, or hold a value.  In Python, `d["k"]` raises on a missing
  key but returns `None` for null; `d.get("k", dflt)` returns `dflt` only
  for a missing key.  The distinction is observable in the formatter.
* Scores are exact rationals.  The only float comparisons in the source are
  against 0.5 and 0.7 with small-integer ratios, where binary floating
  point agrees with exact rational arithmetic.
* A Python stage that may raise is embedded as an `Option`-returning body;
  `none` models an exception escaping to the surrounding `except` clause.
-/

namespace QGen

/-- A JSON object field: the key may be absent, explicitly `null`, or carry
a value. -/
inductive JVal (α : Type) where
  | missing
  | null
  | val (a : α)
deriving DecidableEq, Repr

/-- One question record (`QuestionDict` in agents.py).  The structure
filter of the generator only checks that the `question` / `question_latex`
keys are present, so every field is three-valued. -/
structure Question where
  question : JVal String
  question_latex : JVal String
  options : JVal (List String)
  options_latex : JVal (List String)
  correct_answer : JVal String
  correct_answer_latex : JVal String
  difficulty : JVal Int
  validation_score : Option ℚ
  feedback : Option String
deriving DecidableEq, Repr

/-- The per-run configuration (the `user_inputs` dict built by app.py,
which always populates every key). -/
structure UserInputs where
  class_level : String
  subject : String
  chapter : String
  topic : String
  num_questions : Nat
  difficulty : Int
  question_type : String
  choice_type : String
deriving DecidableEq, Repr

/-- `WorkflowState` from agents.py (timing fields omitted: they carry no
pipeline-relevant data). -/
structure WorkflowState where
  user_inputs : UserInputs
  raw_generated_questions : List Question
  validated_questions : List Question
  output : String
  output_latex : String
  retry_count : Nat
  context_snippets : List String
deriving DecidableEq, Repr

/-- The initial state built in app.py before `workflow.invoke`. -/
def initial_state (ui : UserInputs) : WorkflowState :=
  { user_inputs := ui
    raw_generated_questions := []
    validated_questions := []
    output := ""
    output_latex := ""
    retry_count := 0
    context_snippets := [] }

/-! ## Python string primitives -/

/-- The characters that the Python `str.strip()` method removes. -/
def py_space (c : Char) : Bool :=
  c = ' ' || c = '\t' || c = '\n' || c = '\r' || c = Char.ofNat 11 || c = Char.ofNat 12

/-- Python `str.strip()` on a character list. -/
def py_strip_list (l : List Char) : List Char :=
  ((l.dropWhile py_space).reverse.dropWhile py_space).reverse

/-- Python `str.strip()`. -/
def py_strip (s : String) : String :=
  String.mk (py_strip_list s.data)

/-- The backquote character (code 96). -/
def backquote : Char := Char.ofNat 96

/-- The three-backquote code-fence marker. -/
def fence_marker : List Char := [backquote, backquote, backquote]

/-- Characters up to (excluding) the next fence marker; the whole rest if
none occurs.  Applied after the leading marker has been dropped, this is
exactly the Python `content.split("three backquotes")[1]` for a `content`
that starts with the marker. -/
def take_until_fence : List Char → List Char
  | [] => []
  | c :: rest =>
      if fence_marker.isPrefixOf (c :: rest) then []
      else c :: take_until_fence rest

/-- The fence-stripping prelude shared by the generator (agents.py:122-128)
and the validator (agents.py:229-234): strip whitespace, peel one fenced
block if the text starts with a fence, drop an optional `json` label,
strip again. -/
def strip_code_fences (content : String) : String :=
  let s := py_strip_list content.data
  let s :=
    if fence_marker.isPrefixOf s then
      let t := take_until_fence (s.drop 3)
      if ("json".data).isPrefixOf t then t.drop 4 else t
    else s
  py_strip (String.mk s)

/-- Python `sep.join(lines)`. -/
def py_join (sep : String) : List String → String
  | [] => ""
  | [a] => a
  | a :: b :: rest => a ++ sep ++ py_join sep (b :: rest)

/-! ## External capability outcomes -/

/-- Outcome of one LLM invocation: the call raised, or returned content. -/
inductive LLMOutcome where
  | failure
  | success (content : String)

/-- Outcome of the Pinecone context query in graph.py. -/
inductive RetrOutcome where
  | failure
  | success (snippets : List String)

/-- One element of the JSON array the generator response decodes to:
either a non-object element (dropped by the `isinstance(q, dict)` check) or
an object read as a question record. -/
inductive RawItem where
  | nonObj
  | obj (q : Question)

/-- One scoring object of the decoded validator response.  `none` fields
model missing keys (`val.get` defaults apply).  A present-but-null or
non-numeric score makes the later `>= 0.7` comparison raise, which the
`except` clause turns into the fallback; such responses are modelled by a
failing parse. -/
structure ValItem where
  validation_score : Option ℚ
  feedback : Option String
deriving DecidableEq, Repr

/-! ## Pipeline stages (agents.py) -/

/-- The Context Retrieval node in graph.py (lines 39-68): write the snippet
texts on success, an empty list when the query raised. -/
def retrieve_context (outcome : RetrOutcome) (state : WorkflowState) : WorkflowState :=
  match outcome with
  | .failure => { state with context_snippets := [] }
  | .success l => { state with context_snippets := l }

/-- The Generation stage (agents.py:96-152): on a successful call, strip
code fences, decode, keep only object elements carrying both the
`question` and `question_latex` keys; on a raised call or a failed decode,
fall back to an empty list. -/
def generate_questions (parse : String → Option (List RawItem))
    (outcome : LLMOutcome) (state : WorkflowState) : WorkflowState :=
  match outcome with
  | .failure => { state with raw_generated_questions := [] }
  | .success content =>
      match parse (strip_code_fences content) with
      | none => { state with raw_generated_questions := [] }
      | some items =>
          let kept := items.filterMap (fun it =>
            match it with
            | .nonObj => none
            | .obj q =>
                if q.question ≠ JVal.missing ∧ q.question_latex ≠ JVal.missing then
                  some q
                else none)
          { state with raw_generated_questions := kept }

/-- The fail-open validator fallback (agents.py:259-263): fixed score
0.75 and a fixed feedback string. -/
def fallback_question (q : Question) : Question :=
  { q with validation_score := some (0.75 : ℚ)
           feedback := some "Auto-approved due to validation error" }

/-- Attach one scoring object to one question (agents.py:243-244), with the
defaults the source supplies for missing keys. -/
def attach_validation (q : Question) (v : ValItem) : Question :=
  { q with validation_score := some (v.validation_score.getD (0.5 : ℚ))
           feedback := some (v.feedback.getD "No feedback") }

/-- The merge loop of agents.py:239-245: question `i` is paired with
scoring object `i` while `i < len(validations)`, so exactly the pairs at
common indices are kept. -/
def merge_validations (questions : List Question) (validations : List ValItem) : List Question :=
  List.zipWith attach_validation questions validations

/-- The Validation stage (agents.py:195-264).  The merge also mutates the
question dicts stored in `raw_generated_questions` in place, which the
embedding reproduces explicitly.  Any exception — a raised call, a failed
decode, or a scoring object whose score is not comparable to 0.7 — lands in
the `except` clause, which auto-approves every raw question. -/
def validate_questions (parse : String → Option (List ValItem))
    (outcome : LLMOutcome) (state : WorkflowState) : WorkflowState :=
  let questions := state.raw_generated_questions
  if questions.isEmpty then
    { state with validated_questions := [] }
  else
    match outcome with
    | .failure =>
        let fb := questions.map fallback_question
        { state with raw_generated_questions := fb, validated_questions := fb }
    | .success content =>
        match parse (strip_code_fences content) with
        | none =>
            let fb := questions.map fallback_question
            { state with raw_generated_questions := fb, validated_questions := fb }
        | some validations =>
            let mutated := questions.enum.map (fun iq =>
              match validations.get? iq.1 with
              | some v => attach_validation iq.2 v
              | none => iq.2)
            let merged := merge_validations questions validations
            let approved := merged.filter (fun q =>
              decide ((0.7 : ℚ) ≤ q.validation_score.getD 0))
            { state with raw_generated_questions := mutated
                         validated_questions := approved }

/-! ## Output formatting (agents.py:269-358)

The stage body sits in a `try`; an `Option` result embeds it, with `none`
standing for an exception reaching the `except` clause. -/

/-- Python subscript access `q[k]` on a three-valued field: a missing key
raises (`none`); a null renders as the string `None` inside an f-string. -/
def py_index (v : JVal String) : Option String :=
  match v with
  | .missing => none
  | .null => some "None"
  | .val s => some s

/-- `q.get("question_latex", q["question"])` (agents.py:332): the default
argument is evaluated eagerly, so a missing `question` key raises even when
`question_latex` is present. -/
def latex_text (q : Question) : Option String :=
  (py_index q.question).bind (fun qtext =>
    match q.question_latex with
    | .missing => some qtext
    | .null => some "None"
    | .val s => some s)

/-- Python truthiness of `q.get(k)` for a list-valued field: only a present
non-empty list is truthy. -/
def jlist_truthy (v : JVal (List String)) : Bool :=
  match v with
  | .val (_ :: _) => true
  | _ => false

/-- `q.get("options_latex", q.get("options", []))` (agents.py:337), as the
list the option loop iterates: iterating `None` raises, which happens when
a key is present with an explicit null and gets past the truthiness guard. -/
def latex_options (q : Question) : Option (List String) :=
  match q.options_latex with
  | .val l => some l
  | .null => none
  | .missing =>
      match q.options with
      | .val l => some l
      | .null => none
      | .missing => some []

/-- The label-stripping expression of agents.py:340:
`opt[3:] if len(opt) > 3 and opt[1] == ')' else opt`. -/
def strip_option_label (opt : String) : String :=
  if 3 < opt.length ∧ opt.data.get? 1 = some ')' then opt.drop 3 else opt

/-- An 80-character `=` banner (`"=" * 80`). -/
def eq_banner : String := String.mk (List.replicate 80 '=')

/-- The plain-text header block (agents.py:289-297). -/
def plain_header (inputs : UserInputs) : List String :=
  [ eq_banner,
    "QUESTION PAPER",
    "Class: " ++ inputs.class_level ++ " | Subject: " ++ inputs.subject,
    "Chapter: " ++ inputs.chapter ++ " | Topic: " ++ inputs.topic,
    "Difficulty Level: " ++ toString inputs.difficulty ++ "/5 | Type: " ++ inputs.question_type,
    eq_banner,
    "" ]

/-- The LaTeX preamble block (agents.py:300-319). -/
def latex_header (inputs : UserInputs) : List String :=
  [ "\\documentclass[12pt]\x7barticle\x7d",
    "\\usepackage\x7bamsmath\x7d",
    "\\usepackage\x7bamssymb\x7d",
    "\\usepackage\x7bgeometry\x7d",
    "\\geometry\x7bmargin=1in\x7d",
    "\\title\x7bQuestion Paper\x7d",
    "\\author\x7b" ++ inputs.class_level ++ " - " ++ inputs.subject ++ "\x7d",
    "\\date\x7b\\today\x7d",
    "\\begin\x7bdocument\x7d",
    "\\maketitle",
    "",
    "\\section*\x7bChapter: " ++ inputs.chapter ++ "\x7d",
    "\\subsection*\x7bTopic: " ++ inputs.topic ++ "\x7d",
    "\\textbf\x7bDifficulty Level:\x7d " ++ toString inputs.difficulty ++ "/5 \\\\",
    "\\textbf\x7bQuestion Type:\x7d " ++ inputs.question_type,
    "",
    "\\begin\x7benumerate\x7d",
    "" ]

/-- The plain-text lines one question contributes (agents.py:322-329);
`i` is the 1-based position from `enumerate(questions, 1)`. -/
def question_plain_lines (i : Nat) (q : Question) : Option (List String) :=
  (py_index q.question).map (fun qtext =>
    [toString i ++ ". " ++ qtext, ""] ++
    (if jlist_truthy q.options then
      (match q.options with
       | .val l => l.map (fun opt => "   " ++ opt)
       | _ => []) ++ [""]
     else []))

/-- The LaTeX lines one question contributes (agents.py:331-343). -/
def question_latex_lines (q : Question) : Option (List String) :=
  (latex_text q).bind (fun ltext =>
    if jlist_truthy q.options_latex || jlist_truthy q.options then
      (latex_options q).map (fun opts =>
        ["\\item " ++ ltext, "", "\\begin\x7benumerate\x7d"] ++
        opts.map (fun opt => "  \\item " ++ strip_option_label opt) ++
        ["\\end\x7benumerate\x7d", ""])
    else some ["\\item " ++ ltext, ""])

/-- Run `f` over a list, failing as soon as one element fails — the
`Option` image of a Python loop whose body may raise. -/
def opt_map_list {α β : Type} (f : α → Option β) : List α → Option (List β)
  | [] => some []
  | a :: t =>
      match f a, opt_map_list f t with
      | some b, some bs => some (b :: bs)
      | _, _ => none

/-- The `try` body of format_output_node.  The source interleaves the
plain-text and LaTeX lines of each question in one loop; the two passes
here produce the same two documents and fail exactly when the loop would
raise. -/
def format_output_body (state : WorkflowState) : Option (String × String) :=
  let questions := state.validated_questions
  let inputs := state.user_inputs
  if questions.isEmpty then
    some ("No valid questions generated. Please try again.",
          "No valid questions generated.")
  else
    match opt_map_list (fun iq => question_plain_lines iq.1 iq.2) (questions.enumFrom 1),
          opt_map_list question_latex_lines questions with
    | some plainBlocks, some latexBlocks =>
        some (py_join "\n" (plain_header inputs ++ plainBlocks.flatten),
              py_join "\n" (latex_header inputs ++ latexBlocks.flatten ++
                ["\\end\x7benumerate\x7d", "\\end\x7bdocument\x7d"]))
    | _, _ => none

/-- The Formatting stage (agents.py:269-358): the `except` clause replaces
both outputs with a fixed error string. -/
def format_output_node (state : WorkflowState) : WorkflowState :=
  match format_output_body state with
  | some (out, lat) => { state with output := out, output_latex := lat }
  | none => { state with output := "Error formatting output"
                         output_latex := "Error formatting output" }

/-! ## Retry decision and workflow graph (graph.py) -/

/-- The two labels `should_retry` can return; `toEnd` is the literal
`"end"`, wired to the `format_output` node by `add_conditional_edges`. -/
inductive Route where
  | generator
  | toEnd
deriving DecidableEq, Repr

/-- `should_retry` (graph.py:114-131).  It both picks the route and may set
`retry_count`, so it returns the route together with the updated state.
`pass_rate` is exact here; for list lengths the float comparison with 0.5
gives the same verdict. -/
def should_retry (state : WorkflowState) : Route × WorkflowState :=
  let validated := state.validated_questions
  let raw := state.raw_generated_questions
  let retry_count := state.retry_count
  if raw.isEmpty then (.toEnd, state)
  else
    let pass_rate : ℚ := (validated.length : ℚ) / (raw.length : ℚ)
    if pass_rate < (0.5 : ℚ) ∧ retry_count = 0 then
      (.generator, { state with retry_count := 1 })
    else (.toEnd, state)

/-- The nodes of the compiled graph (graph.py:134-154), plus a terminal
`done` marker for `END`. -/
inductive Node where
  | retrieve
  | generator
  | validator
  | format_output
  | done
deriving DecidableEq, Repr

/-- The external world of one run: the retrieval outcome, the LLM outcome of the
k-th generator / validator invocation, and the decoders. -/
structure Oracles where
  retr : RetrOutcome
  gen : Nat → LLMOutcome
  val : Nat → LLMOutcome
  genParse : String → Option (List RawItem)
  valParse : String → Option (List ValItem)

/-- A machine configuration: current node, state, and how many times the
generator / validator have run (indexing the oracle streams). -/
structure Config where
  node : Node
  state : WorkflowState
  gcount : Nat
  vcount : Nat

/-- One transition of the compiled graph: the edges of graph.py:139-154,
with the conditional edge out of `validator` decided by `should_retry`. -/
def step (o : Oracles) (c : Config) : Config :=
  match c.node with
  | .retrieve =>
      { c with node := .generator, state := retrieve_context o.retr c.state }
  | .generator =>
      { c with node := .validator
               state := generate_questions o.genParse (o.gen c.gcount) c.state
               gcount := c.gcount + 1 }
  | .validator =>
      let s := validate_questions o.valParse (o.val c.vcount) c.state
      match should_retry s with
      | (.generator, s2) =>
          { node := .generator, state := s2, gcount := c.gcount, vcount := c.vcount + 1 }
      | (.toEnd, s2) =>
          { node := .format_output, state := s2, gcount := c.gcount, vcount := c.vcount + 1 }
  | .format_output =>
      { c with node := .done, state := format_output_node c.state }
  | .done => c

/-- The entry configuration: `workflow.set_entry_point("retrieve_context")`
applied to the initial state built in app.py. -/
def init_config (ui : UserInputs) : Config :=
  { node := .retrieve, state := initial_state ui, gcount := 0, vcount := 0 }

/-- The configuration after `n` transitions of one pipeline run. -/
def run (o : Oracles) (ui : UserInputs) : Nat → Config
  | 0 => init_config ui
  | n + 1 => step o (run o ui n)

/-! ## Concrete sample data (used by witnesses) -/

/-- A descriptive-style sample question. -/
def qEx : Question :=
  { question := .val "What is 2 plus 2?"
    question_latex := .val "What is $2+2$?"
    options := .missing
    options_latex := .missing
    correct_answer := .val "4"
    correct_answer_latex := .val "$4$"
    difficulty := .val 2
    validation_score := none
    feedback := none }

/-- An objective-style sample question with labelled options. -/
def qOpts : Question :=
  { qEx with
    options := .val ["A) 3", "B) 4", "C) 5", "D) 6"]
    options_latex := .val ["A) $3$", "B) $4$", "C) $5$", "D) $6$"] }

/-- A sample per-run configuration. -/
def uiEx : UserInputs :=
  { class_level := "Class 10", subject := "Mathematics", chapter := "Algebra"
    topic := "Linear Equations", num_questions := 5, difficulty := 3
    question_type := "Objective", choice_type := "Single Choice" }

/-- A decoder that rejects every content. -/
def parse_none_raw : String → Option (List RawItem) := fun _ => none

/-- A scoring decoder that rejects every content. -/
def parse_none_val : String → Option (List ValItem) := fun _ => none

/-- An external world in which every capability fails. -/
def oracles_fail : Oracles :=
  { retr := .failure, gen := fun _ => .failure, val := fun _ => .failure
    genParse := parse_none_raw, valParse := parse_none_val }

/-- The fresh state of a run. -/
def st_empty : WorkflowState := initial_state uiEx

/-- A state holding one raw question. -/
def st_one : WorkflowState := { st_empty with raw_generated_questions := [qEx] }

/-- A state holding two raw questions and no validated ones. -/
def st_two : WorkflowState := { st_empty with raw_generated_questions := [qEx, qOpts] }

/-- A state about to be formatted, with one validated objective question. -/
def st_format : WorkflowState := { st_empty with validated_questions := [qOpts] }

/-- Three sample scoring objects. -/
def vlist3 : List ValItem :=
  [ { validation_score := some (0.9 : ℚ), feedback := some "ok" },
    { validation_score := some (0.6 : ℚ), feedback := none },
    { validation_score := none, feedback := none } ]

/-! ## Stage bookkeeping lemmas -/

theorem retrieve_context_validated (r : RetrOutcome) (st : WorkflowState) :
    (retrieve_context r st).validated_questions = st.validated_questions := by
  cases r <;> rfl

theorem retrieve_context_retry (r : RetrOutcome) (st : WorkflowState) :
    (retrieve_context r st).retry_count = st.retry_count := by
  cases r <;> rfl

theorem generate_questions_validated (p : String → Option (List RawItem))
    (o : LLMOutcome) (st : WorkflowState) :
    (generate_questions p o st).validated_questions = st.validated_questions := by
  cases o with
  | failure => rfl
  | success c =>
      simp only [generate_questions]
      cases p (strip_code_fences c) <;> rfl

theorem generate_questions_retry (p : String → Option (List RawItem))
    (o : LLMOutcome) (st : WorkflowState) :
    (generate_questions p o st).retry_count = st.retry_count := by
  cases o with
  | failure => rfl
  | success c =>
      simp only [generate_questions]
      cases p (strip_code_fences c) <;> rfl

theorem validate_questions_retry (p : String → Option (List ValItem))
    (o : LLMOutcome) (st : WorkflowState) :
    (validate_questions p o st).retry_count = st.retry_count := by
  cases o with
  | failure =>
      simp only [validate_questions]
      split <;> rfl
  | success c =>
      simp only [validate_questions]
      split
      · rfl
      · cases p (strip_code_fences c) <;> rfl

theorem format_output_validated (st : WorkflowState) :
    (format_output_node st).validated_questions = st.validated_questions := by
  unfold format_output_node
  cases format_output_body st with
  | none => rfl
  | some pr => obtain ⟨a, b⟩ := pr; rfl

theorem format_output_retry (st : WorkflowState) :
    (format_output_node st).retry_count = st.retry_count := by
  unfold format_output_node
  cases format_output_body st with
  | none => rfl
  | some pr => obtain ⟨a, b⟩ := pr; rfl

theorem should_retry_cases (st : WorkflowState) :
    should_retry st = (Route.toEnd, st) ∨
    should_retry st = (Route.generator, { st with retry_count := 1 }) := by
  simp only [should_retry]
  split
  · exact Or.inl rfl
  · split
    · exact Or.inr rfl
    · exact Or.inl rfl

theorem should_retry_of_retried (st : WorkflowState) (h : st.retry_count ≠ 0) :
    should_retry st = (Route.toEnd, st) := by
  simp only [should_retry]
  split
  · rfl
  · split
    · rename_i hc; exact absurd hc.2 h
    · rfl

theorem should_retry_gen_eq {st st' : WorkflowState}
    (h : should_retry st = (Route.generator, st')) :
    st' = { st with retry_count := 1 } := by
  rcases should_retry_cases st with hc | hc
  · rw [hc] at h
    exact absurd (congrArg Prod.fst h) (by simp)
  · rw [hc] at h
    exact (congrArg Prod.snd h).symm

theorem py_join_ne_empty (sep a : String) (l : List String) (h : a ≠ "") :
    py_join sep (a :: l) ≠ "" := by
  cases l with
  | nil => simpa [py_join] using h
  | cons b t =>
      simp only [py_join]
      intro he
      apply h
      have hd := congrArg String.data he
      simp only [String.data_append] at hd
      have h1 := (List.append_eq_nil.mp (List.append_eq_nil.mp hd).1).1
      obtain ⟨ad⟩ := a
      simp only at h1
      rw [h1]

theorem format_node_of_body_some {st : WorkflowState} {out lat : String}
    (h : format_output_body st = some (out, lat)) :
    format_output_node st = { st with output := out, output_latex := lat } := by
  unfold format_output_node
  rw [h]

theorem format_output_body_ne_empty {st : WorkflowState} {out lat : String}
    (h : format_output_body st = some (out, lat)) : out ≠ "" ∧ lat ≠ "" := by
  simp only [format_output_body] at h
  split at h
  · obtain ⟨rfl, rfl⟩ := Prod.mk.inj (Option.some.inj h)
    exact ⟨by decide, by decide⟩
  · split at h
    · obtain ⟨h1, h2⟩ := Prod.mk.inj (Option.some.inj h)
      constructor
      · rw [← h1]
        simp only [plain_header, List.cons_append]
        exact py_join_ne_empty _ _ _ (by decide)
      · rw [← h2]
        simp only [latex_header, List.cons_append]
        exact py_join_ne_empty _ _ _ (by decide)
    · exact absurd h (by simp)

theorem format_output_node_ne_empty (st : WorkflowState) :
    (format_output_node st).output ≠ "" ∧ (format_output_node st).output_latex ≠ "" := by
  cases h : format_output_body st with
  | none =>
      unfold format_output_node
      rw [h]
      exact ⟨show "Error formatting output" ≠ "" by decide,
             show "Error formatting output" ≠ "" by decide⟩
  | some pr =>
      obtain ⟨out, lat⟩ := pr
      rw [format_node_of_body_some h]
      exact format_output_body_ne_empty h

/-! ## The approval invariant -/

/-- Every validated question carries a score, and that score clears the
0.7 approval threshold. -/
def approved_ok (s : WorkflowState) : Prop :=
  ∀ q ∈ s.validated_questions, ∃ r : ℚ, q.validation_score = some r ∧ (0.7 : ℚ) ≤ r

theorem approved_ok_of_validated_eq {s t : WorkflowState}
    (h : s.validated_questions = t.validated_questions) (ht : approved_ok t) :
    approved_ok s := by
  unfold approved_ok at ht ⊢
  rw [h]
  exact ht

theorem fallback_ok (l : List Question) (q : Question)
    (hq : q ∈ l.map fallback_question) :
    ∃ r : ℚ, q.validation_score = some r ∧ (0.7 : ℚ) ≤ r := by
  rcases List.mem_map.mp hq with ⟨q', -, rfl⟩
  exact ⟨0.75, rfl, by norm_num⟩

theorem validate_questions_ok (p : String → Option (List ValItem))
    (o : LLMOutcome) (st : WorkflowState) :
    approved_ok (validate_questions p o st) := by
  cases o with
  | failure =>
      simp only [validate_questions]
      split
      · intro q hq
        simp only [List.not_mem_nil] at hq
      · intro q hq
        exact fallback_ok _ _ hq
  | success c =>
      simp only [validate_questions]
      split
      · intro q hq
        simp only [List.not_mem_nil] at hq
      · cases p (strip_code_fences c) with
        | none =>
            intro q hq
            exact fallback_ok _ _ hq
        | some vs =>
            intro q hq
            have hpred := (List.mem_filter.mp hq).2
            have hle : (0.7 : ℚ) ≤ q.validation_score.getD 0 := of_decide_eq_true hpred
            cases hs : q.validation_score with
            | none =>
                rw [hs] at hle
                norm_num [Option.getD] at hle
            | some r =>
                rw [hs] at hle
                exact ⟨r, rfl, by simpa using hle⟩

theorem opt_map_list_isSome {α β : Type} (f : α → Option β) :
    ∀ l : List α, (∀ a ∈ l, (f a).isSome) → (opt_map_list f l).isSome
  | [], _ => by simp [opt_map_list]
  | a :: t, h => by
      have h1 := h a (List.mem_cons_self a t)
      have h2 := opt_map_list_isSome f t (fun x hx => h x (List.mem_cons_of_mem a hx))
      simp only [opt_map_list]
      rcases Option.isSome_iff_exists.mp h1 with ⟨b, hb⟩
      rcases Option.isSome_iff_exists.mp h2 with ⟨bs, hbs⟩
      rw [hb, hbs]
      rfl

theorem snd_mem_of_mem_enumFrom {α : Type} :
    ∀ (l : List α) (n : Nat) (p : Nat × α), p ∈ l.enumFrom n → p.2 ∈ l
  | [], _, _, h => by simp [List.enumFrom] at h
  | a :: t, n, p, h => by
      simp only [List.enumFrom] at h
      rcases List.mem_cons.mp h with rfl | h'
      · exact List.mem_cons_self _ _
      · exact List.mem_cons_of_mem _ (snd_mem_of_mem_enumFrom t (n + 1) p h')

/-! ## Machine-step preservation lemmas -/

theorem should_retry_snd_validated (st : WorkflowState) :
    ((should_retry st).2).validated_questions = st.validated_questions := by
  rcases should_retry_cases st with hc | hc <;> rw [hc]

theorem should_retry_snd_retry_le (st : WorkflowState) (h : st.retry_count ≤ 1) :
    ((should_retry st).2).retry_count ≤ 1 := by
  rcases should_retry_cases st with hc | hc
  · rw [hc]
    exact h
  · rw [hc]

theorem step_preserves_ok (o : Oracles) (c : Config)
    (h : 0 < c.vcount → approved_ok c.state) :
    0 < (step o c).vcount → approved_ok (step o c).state := by
  obtain ⟨node, st, g, v⟩ := c
  cases node with
  | retrieve =>
      intro hv
      exact approved_ok_of_validated_eq (retrieve_context_validated o.retr st) (h hv)
  | generator =>
      intro hv
      exact approved_ok_of_validated_eq (generate_questions_validated o.genParse (o.gen g) st) (h hv)
  | validator =>
      intro _
      have hok := validate_questions_ok o.valParse (o.val v) st
      simp only [step]
      rcases hsc : should_retry (validate_questions o.valParse (o.val v) st) with ⟨route, s4⟩
      have hval : s4.validated_questions =
          (validate_questions o.valParse (o.val v) st).validated_questions := by
        have := should_retry_snd_validated (validate_questions o.valParse (o.val v) st)
        rw [hsc] at this
        exact this
      cases route <;> exact approved_ok_of_validated_eq hval hok
  | format_output =>
      intro hv
      exact approved_ok_of_validated_eq (format_output_validated st) (h hv)
  | done => exact h

theorem step_retry_le (o : Oracles) (c : Config)
    (h : c.state.retry_count ≤ 1) : (step o c).state.retry_count ≤ 1 := by
  obtain ⟨node, st, g, v⟩ := c
  cases node with
  | retrieve =>
      show (retrieve_context o.retr st).retry_count ≤ 1
      rw [retrieve_context_retry]
      exact h
  | generator =>
      show (generate_questions o.genParse (o.gen g) st).retry_count ≤ 1
      rw [generate_questions_retry]
      exact h
  | validator =>
      simp only [step]
      have hv : (validate_questions o.valParse (o.val v) st).retry_count ≤ 1 := by
        rw [validate_questions_retry]
        exact h
      have hs := should_retry_snd_retry_le (validate_questions o.valParse (o.val v) st) hv
      rcases hsc : should_retry (validate_questions o.valParse (o.val v) st) with ⟨route, s4⟩
      rw [hsc] at hs
      cases route <;> exact hs
  | format_output =>
      show (format_output_node st).retry_count ≤ 1
      rw [format_output_retry]
      exact h
  | done => exact h

/-! ## Claim theorems -/

/-- C1: after each Validation pass, `should_retry` routes back to the
Generation stage if and only if `raw_generated_questions` is non-empty, the
pass rate `|validated| / |raw|` is below 0.5, and `retry_count` is 0; in
that case the returned state has `retry_count` set to 1, and in every other
case (including empty raw) the route is the edge to the Formatting node
with the state unchanged. -/
theorem retry_decision (st : WorkflowState) :
    (should_retry st = (Route.generator, { st with retry_count := 1 }) ↔
      st.raw_generated_questions ≠ [] ∧
      (st.validated_questions.length : ℚ) / (st.raw_generated_questions.length : ℚ)
        < (0.5 : ℚ) ∧
      st.retry_count = 0) ∧
    (¬(st.raw_generated_questions ≠ [] ∧
        (st.validated_questions.length : ℚ) / (st.raw_generated_questions.length : ℚ)
          < (0.5 : ℚ) ∧
        st.retry_count = 0) →
      should_retry st = (Route.toEnd, st)) := by
  simp only [should_retry]
  by_cases h1 : st.raw_generated_questions.isEmpty
  · rw [if_pos h1]
    constructor
    · constructor
      · intro h
        exact absurd (congrArg Prod.fst h) (by simp)
      · rintro ⟨hne, -, -⟩
        exact absurd (List.isEmpty_iff.mp h1) hne
    · intro _
      rfl
  · rw [if_neg h1]
    have hne : st.raw_generated_questions ≠ [] :=
      fun he => h1 (List.isEmpty_iff.mpr he)
    by_cases h2 : (st.validated_questions.length : ℚ) /
        (st.raw_generated_questions.length : ℚ) < (0.5 : ℚ) ∧ st.retry_count = 0
    · rw [if_pos h2]
      constructor
      · exact ⟨fun _ => ⟨hne, h2.1, h2.2⟩, fun _ => rfl⟩
      · intro hn
        exact absurd ⟨hne, h2.1, h2.2⟩ hn
    · rw [if_neg h2]
      constructor
      · constructor
        · intro h
          exact absurd (congrArg Prod.fst h) (by simp)
        · rintro ⟨-, hlt, hrc⟩
          exact absurd ⟨hlt, hrc⟩ h2
      · intro _
        rfl

/-- C1 witness: a state with two raw questions, no validated ones and
`retry_count = 0` is routed back to the generator with `retry_count` set
to 1. -/
theorem retry_decision_witness :
    st_two.raw_generated_questions ≠ [] ∧
    should_retry st_two = (Route.generator, { st_two with retry_count := 1 }) :=
  ⟨by decide, (retry_decision st_two).1.mpr
    ⟨by decide, by norm_num [st_two, st_empty, initial_state], rfl⟩⟩

/-- C3: when `raw_generated_questions` is non-empty and the scoring call
raises or its response fails to decode, Validation sets
`validated_questions` to the full raw list — same length, and the question
at each index unchanged except that its `validation_score` becomes exactly
0.75 and its `feedback` the fixed fallback string. -/
theorem validation_failure_fallback (p : String → Option (List ValItem))
    (o : LLMOutcome) (st : WorkflowState)
    (hraw : st.raw_generated_questions ≠ [])
    (hfail : o = LLMOutcome.failure ∨
      ∃ c, o = LLMOutcome.success c ∧ p (strip_code_fences c) = none) :
    (validate_questions p o st).validated_questions.length =
      st.raw_generated_questions.length ∧
    ∀ i q, st.raw_generated_questions.get? i = some q →
      (validate_questions p o st).validated_questions.get? i =
        some { q with validation_score := some (0.75 : ℚ)
                      feedback := some "Auto-approved due to validation error" } := by
  have hemp : st.raw_generated_questions.isEmpty = false := by
    rcases hl : st.raw_generated_questions with - | ⟨a, t⟩
    · exact absurd hl hraw
    · rfl
  have hval : (validate_questions p o st).validated_questions =
      st.raw_generated_questions.map fallback_question := by
    rcases hfail with rfl | ⟨c, rfl, hp⟩
    · simp only [validate_questions, hemp]
      rfl
    · simp only [validate_questions, hemp, Bool.false_eq_true, if_false, hp]
  rw [hval]
  constructor
  · exact List.length_map _ _
  · intro i q hq
    rw [List.get?_map, hq]
    rfl

/-- C3 witness: with one raw question and a raised scoring call, the
fallback list has the same length as the raw list. -/
theorem validation_failure_fallback_witness :
    st_one.raw_generated_questions ≠ [] ∧
    (validate_questions parse_none_val LLMOutcome.failure st_one).validated_questions.length =
      st_one.raw_generated_questions.length :=
  ⟨by decide,
   (validation_failure_fallback parse_none_val LLMOutcome.failure st_one
      (by decide) (Or.inl rfl)).1⟩

/-- C8: when `raw_generated_questions` is empty, Validation returns the
state with `validated_questions := []` whatever the scoring outcome is (the
external capability is never consulted), the retry decision routes to
Formatting, and Formatting emits the designated no-questions message in
both outputs. -/
theorem empty_raw_path (p : String → Option (List ValItem)) (o : LLMOutcome)
    (st : WorkflowState) (h : st.raw_generated_questions = []) :
    validate_questions p o st = { st with validated_questions := [] } ∧
    should_retry (validate_questions p o st) =
      (Route.toEnd, validate_questions p o st) ∧
    (format_output_node (validate_questions p o st)).output =
      "No valid questions generated. Please try again." ∧
    (format_output_node (validate_questions p o st)).output_latex =
      "No valid questions generated." := by
  have hemp : st.raw_generated_questions.isEmpty = true := by
    rw [h]
    rfl
  have hv : validate_questions p o st = { st with validated_questions := [] } := by
    simp only [validate_questions, hemp]
    rfl
  have hbody : format_output_body { st with validated_questions := [] } =
      some ("No valid questions generated. Please try again.",
            "No valid questions generated.") := by
    simp only [format_output_body]
    rfl
  refine ⟨hv, ?_, ?_, ?_⟩
  · rw [hv]
    simp only [should_retry, h]
    rfl
  · rw [hv, format_node_of_body_some hbody]
  · rw [hv, format_node_of_body_some hbody]

/-- C8 witness: the empty-raw path on the fresh sample state. -/
theorem empty_raw_path_witness :
    (format_output_node (validate_questions parse_none_val LLMOutcome.failure st_empty)).output =
      "No valid questions generated. Please try again." :=
  (empty_raw_path parse_none_val LLMOutcome.failure st_empty rfl).2.2.1

/-- C9: the Generation stage strips a fenced wrapper and an optional
`json` label before decoding; a raised call or a failed decode leaves
`raw_generated_questions` empty instead of raising; and in the graph the
generator node is always followed by the validator node. -/
theorem generation_parse_and_fallback (p : String → Option (List RawItem))
    (st : WorkflowState) :
    (generate_questions p LLMOutcome.failure st).raw_generated_questions = [] ∧
    (∀ c, p (strip_code_fences c) = none →
      (generate_questions p (LLMOutcome.success c) st).raw_generated_questions = []) ∧
    strip_code_fences "```json\n[1, 2]\n```" = "[1, 2]" ∧
    strip_code_fences "```\n[1, 2]\n```" = "[1, 2]" ∧
    strip_code_fences "  [1, 2] " = "[1, 2]" ∧
    (∀ (o : Oracles) (c : Config), c.node = Node.generator →
      (step o c).node = Node.validator) := by
  refine ⟨rfl, ?_, by decide, by decide, by decide, ?_⟩
  · intro c hc
    simp only [generate_questions, hc]
  · intro o c hc
    obtain ⟨node, stc, g, v⟩ := c
    simp only at hc
    rw [hc]
    rfl

/-- C9 witness: a response that fails to decode yields an empty raw list. -/
theorem generation_parse_and_fallback_witness :
    (generate_questions parse_none_raw (LLMOutcome.success "not json") st_empty).raw_generated_questions = [] :=
  (generation_parse_and_fallback parse_none_raw st_empty).2.1 "not json" rfl

/-- C10: the Validation merge pairs question `i` with scoring object `i`
and keeps exactly the pairs at common indices, so its length is
`min |raw| |validations|`; scoring objects beyond the raw count are
ignored. -/
theorem merge_truncates (qs : List Question) (vs : List ValItem) :
    (merge_validations qs vs).length = min qs.length vs.length ∧
    ∀ i q v, qs.get? i = some q → vs.get? i = some v →
      (merge_validations qs vs).get? i = some (attach_validation q v) := by
  refine ⟨List.length_zipWith _ _ _, ?_⟩
  intro i q v hq hv
  exact (List.get?_zipWith_eq_some _ _ _ _ _).mpr ⟨q, v, hq, hv, rfl⟩

/-- C10 witness: two questions merged with three scoring objects give two
merged questions, the first being question 0 scored by object 0. -/
theorem merge_truncates_witness :
    (merge_validations [qEx, qOpts] vlist3).length = min [qEx, qOpts].length vlist3.length ∧
    (merge_validations [qEx, qOpts] vlist3).get? 0 =
      some (attach_validation qEx { validation_score := some (0.9 : ℚ), feedback := some "ok" }) :=
  ⟨(merge_truncates [qEx, qOpts] vlist3).1,
   (merge_truncates [qEx, qOpts] vlist3).2 0 qEx
     { validation_score := some (0.9 : ℚ), feedback := some "ok" } rfl rfl⟩

/-- C2: for every per-run configuration and every sequence of external
outcomes, the run reaches the terminal node within 6 transitions, having
invoked the generator (and hence the generation+validation cycle) at most
twice, and the final state carries non-empty `output` and `output_latex`
strings written by the Formatting stage. -/
theorem pipeline_terminates_two_cycles (o : Oracles) (ui : UserInputs) :
    (run o ui 6).node = Node.done ∧
    (run o ui 6).gcount ≤ 2 ∧ (run o ui 6).vcount ≤ 2 ∧
    (run o ui 6).state.output ≠ "" ∧ (run o ui 6).state.output_latex ≠ "" := by
  have h2 : run o ui 2 =
      { node := Node.validator
        state := generate_questions o.genParse (o.gen 0)
          (retrieve_context o.retr (initial_state ui))
        gcount := 1, vcount := 0 } := rfl
  set s3 := validate_questions o.valParse (o.val 0)
    (generate_questions o.genParse (o.gen 0)
      (retrieve_context o.retr (initial_state ui))) with hs3
  rcases hsc : should_retry s3 with ⟨route, s4⟩
  cases route with
  | toEnd =>
      have h3 : run o ui 3 = { node := Node.format_output, state := s4, gcount := 1, vcount := 1 } := by
        show step o (run o ui 2) = _
        rw [h2]
        simp only [step, ← hs3, hsc]
      have h6 : run o ui 6 =
          { node := Node.done, state := format_output_node s4, gcount := 1, vcount := 1 } := by
        show step o (step o (step o (run o ui 3))) = _
        rw [h3]
        rfl
      rw [h6]
      exact ⟨rfl, show (1 : ℕ) ≤ 2 by omega, show (1 : ℕ) ≤ 2 by omega,
        (format_output_node_ne_empty s4).1, (format_output_node_ne_empty s4).2⟩
  | generator =>
      have hs4r : s4.retry_count = 1 := by
        rw [should_retry_gen_eq hsc]
      have h3 : run o ui 3 = { node := Node.generator, state := s4, gcount := 1, vcount := 1 } := by
        show step o (run o ui 2) = _
        rw [h2]
        simp only [step, ← hs3, hsc]
      have h4 : run o ui 4 =
          { node := Node.validator, state := generate_questions o.genParse (o.gen 1) s4
            gcount := 2, vcount := 1 } := by
        show step o (run o ui 3) = _
        rw [h3]
        rfl
      set s6 := validate_questions o.valParse (o.val 1)
        (generate_questions o.genParse (o.gen 1) s4) with hs6
      have hr6 : s6.retry_count = 1 := by
        rw [hs6, validate_questions_retry, generate_questions_retry, hs4r]
      have hsc2 : should_retry s6 = (Route.toEnd, s6) :=
        should_retry_of_retried s6 (by omega)
      have h5 : run o ui 5 = { node := Node.format_output, state := s6, gcount := 2, vcount := 2 } := by
        show step o (run o ui 4) = _
        rw [h4]
        simp only [step, ← hs6, hsc2]
      have h6 : run o ui 6 =
          { node := Node.done, state := format_output_node s6, gcount := 2, vcount := 2 } := by
        show step o (run o ui 5) = _
        rw [h5]
        rfl
      rw [h6]
      exact ⟨rfl, show (2 : ℕ) ≤ 2 by omega, show (2 : ℕ) ≤ 2 by omega,
        (format_output_node_ne_empty s6).1, (format_output_node_ne_empty s6).2⟩

/-- C5: in every reachable configuration of a run (which starts with
`retry_count = 0`), `retry_count` is 0 or 1, for every sequence of external
outcomes. -/
theorem retry_count_zero_or_one (o : Oracles) (ui : UserInputs) (n : Nat) :
    (run o ui n).state.retry_count = 0 ∨ (run o ui n).state.retry_count = 1 := by
  have hb : ∀ m, (run o ui m).state.retry_count ≤ 1 := by
    intro m
    induction m with
    | zero => exact Nat.zero_le 1
    | succ k ih => exact step_retry_le o (run o ui k) ih
  have := hb n
  omega

/-- C4: once the Validation stage has run (`vcount > 0`), every element of
`validated_questions` carries a `validation_score` of at least 0.7, in that
configuration and in every later one: no subsequent stage adds or rescores
elements of `validated_questions`. -/
theorem validated_scores_ge_threshold (o : Oracles) (ui : UserInputs) (n : Nat)
    (h : 0 < (run o ui n).vcount) : approved_ok (run o ui n).state := by
  induction n with
  | zero => exact absurd h (by simp [run, init_config])
  | succ k ih => exact step_preserves_ok o (run o ui k) ih h

/-- C4 witness: after three transitions of the all-failing world the
validator has run once and the invariant holds. -/
theorem validated_scores_ge_threshold_witness :
    0 < (run oracles_fail uiEx 3).vcount ∧ approved_ok (run oracles_fail uiEx 3).state :=
  ⟨by decide, validated_scores_ge_threshold oracles_fail uiEx 3 (by decide)⟩

/-- The well-formedness domain the claim describes for the formatter: the
question text is present, and the markup counterpart of the question and
the option lists, when they appear at all, appear as actual values (an
absent one is a missing key, for which the `.get` fallbacks apply). -/
def well_formed_question (q : Question) : Prop :=
  (∃ s, q.question = JVal.val s) ∧
  (q.question_latex = JVal.missing ∨ ∃ s, q.question_latex = JVal.val s) ∧
  (q.options = JVal.missing ∨ ∃ l, q.options = JVal.val l) ∧
  (q.options_latex = JVal.missing ∨ ∃ l, q.options_latex = JVal.val l)

/-- C6: the Formatting stage never raises past its boundary — whenever its
body fails, both outputs are replaced by the fixed error string — and on
every well-formed input the body succeeds, so the error branch is
unreachable and the stage installs the two produced documents. -/
theorem formatting_total (st : WorkflowState) :
    (format_output_body st = none →
      format_output_node st = { st with output := "Error formatting output"
                                        output_latex := "Error formatting output" }) ∧
    ((∀ q ∈ st.validated_questions, well_formed_question q) →
      ∃ out lat, format_output_body st = some (out, lat) ∧
        format_output_node st = { st with output := out, output_latex := lat }) := by
  constructor
  · intro h
    unfold format_output_node
    rw [h]
  · intro hwf
    suffices hs : (format_output_body st).isSome by
      rcases Option.isSome_iff_exists.mp hs with ⟨pr, h⟩
      obtain ⟨out, lat⟩ := pr
      exact ⟨out, lat, h, format_node_of_body_some h⟩
    simp only [format_output_body]
    split
    · rfl
    · have hp : ∀ iq ∈ st.validated_questions.enumFrom 1,
          (question_plain_lines iq.1 iq.2).isSome := by
        intro iq hiq
        have hmem := snd_mem_of_mem_enumFrom st.validated_questions 1 iq hiq
        rcases (hwf iq.2 hmem).1 with ⟨s, hs⟩
        simp [question_plain_lines, py_index, hs]
      have hl : ∀ q ∈ st.validated_questions, (question_latex_lines q).isSome := by
        intro q hq
        obtain ⟨⟨s, hq1⟩, hq2, hq3, hq4⟩ := hwf q hq
        have hlt : ∃ t, latex_text q = some t := by
          simp only [latex_text, py_index, hq1, Option.some_bind]
          rcases hq2 with h | ⟨t, h⟩ <;> rw [h]
          · exact ⟨s, rfl⟩
          · exact ⟨t, rfl⟩
        rcases hlt with ⟨t, ht⟩
        simp only [question_latex_lines, ht, Option.some_bind]
        split
        · have hopts : ∃ l, latex_options q = some l := by
            simp only [latex_options]
            rcases hq4 with h4 | ⟨l, h4⟩ <;> rw [h4]
            · rcases hq3 with h3 | ⟨l, h3⟩ <;> rw [h3]
              · exact ⟨[], rfl⟩
              · exact ⟨l, rfl⟩
            · exact ⟨l, rfl⟩
          rcases hopts with ⟨l, hle⟩
          rw [hle]
          rfl
        · rfl
      have h1 := opt_map_list_isSome (fun iq => question_plain_lines iq.1 iq.2)
        (st.validated_questions.enumFrom 1) hp
      have h2 := opt_map_list_isSome question_latex_lines st.validated_questions hl
      rcases Option.isSome_iff_exists.mp h1 with ⟨pb, hpb⟩
      rcases Option.isSome_iff_exists.mp h2 with ⟨lb, hlb⟩
      rw [hpb, hlb]
      rfl

/-- C6 witness: the formatter succeeds on a state with one well-formed
objective question. -/
theorem formatting_total_witness :
    ∃ out lat, format_output_body st_format = some (out, lat) ∧
      format_output_node st_format = { st_format with output := out, output_latex := lat } :=
  (formatting_total st_format).2 (by
    intro q hq
    have hq' : q = qOpts := List.mem_singleton.mp hq
    subst hq'
    exact ⟨⟨_, rfl⟩, Or.inr ⟨_, rfl⟩, Or.inr ⟨_, rfl⟩, Or.inr ⟨_, rfl⟩⟩)

/-- The option-label pattern as the claim words it: the string is stripped
exactly when it is long enough and its label is one LETTER followed by the
closing-parenthesis delimiter. -/
def spec_strip_option_label (opt : String) : String :=
  match opt.data with
  | c0 :: c1 :: _ =>
      if 3 < opt.length ∧ c0.isAlpha ∧ c1 = ')' then opt.drop 3 else opt
  | _ => opt

/-- C7 counterexample: the source condition checks only the second
character, never that the first is a letter, so `"1) 23"` — which the
pattern of the claim rejects — is nevertheless stripped to `"23"`, also in the
emitted markup lines. -/
theorem option_label_stripping_counterexample :
    strip_option_label "1) 23" = "23" ∧
    spec_strip_option_label "1) 23" = "1) 23" ∧
    strip_option_label "1) 23" ≠ spec_strip_option_label "1) 23" ∧
    question_latex_lines { qEx with options_latex := JVal.val ["1) 23"] } =
      some ["\\item What is $2+2$?", "", "\\begin\x7benumerate\x7d", "  \\item 23",
            "\\end\x7benumerate\x7d", ""] :=
  ⟨by decide, by decide, by decide, by decide⟩

/-- C7 (amended): an emitted option string is stripped of its first three
characters exactly when it is longer than three characters and its second
character is the closing parenthesis — the first character is not
constrained; any other option string is emitted unchanged.  In particular
`"A) Paris"` is emitted as `"Paris"` and `"Rome"` unchanged, and every
option the markup renderer emits goes through this rule. -/
theorem option_label_stripping (opt : String) :
    (3 < opt.length ∧ opt.data.get? 1 = some ')' →
      strip_option_label opt = opt.drop 3) ∧
    (¬(3 < opt.length ∧ opt.data.get? 1 = some ')') →
      strip_option_label opt = opt) ∧
    strip_option_label "A) Paris" = "Paris" ∧
    strip_option_label "Rome" = "Rome" ∧
    (∀ (q : Question) (opts : List String) (ltext : String),
      q.options_latex = JVal.val opts → opts ≠ [] → latex_text q = some ltext →
      question_latex_lines q =
        some (["\\item " ++ ltext, "", "\\begin\x7benumerate\x7d"] ++
          opts.map (fun o => "  \\item " ++ strip_option_label o) ++
          ["\\end\x7benumerate\x7d", ""])) := by
  refine ⟨?_, ?_, by decide, by decide, ?_⟩
  · intro h
    simp only [strip_option_label, if_pos h]
  · intro h
    simp only [strip_option_label, if_neg h]
  · intro q opts ltext hol hne hlt
    have htr : jlist_truthy q.options_latex = true := by
      rw [hol]
      cases opts with
      | nil => exact absurd rfl hne
      | cons a t => rfl
    have hopts : latex_options q = some opts := by
      simp only [latex_options, hol]
    simp only [question_latex_lines, hlt, Option.some_bind, htr, Bool.true_or, if_pos, hopts]
    rfl

/-- C7 amended-claim witness: the two instances named in the spec. -/
theorem option_label_stripping_witness :
    strip_option_label "A) Paris" = "A) Paris".drop 3 ∧
    strip_option_label "Rome" = "Rome" :=
  ⟨(option_label_stripping "A) Paris").1 (by decide),
   (option_label_stripping "Rome").2.1 (by decide)⟩

end QGen
